import Mathlib

/-!
Shallow embedding of the HALO outbound-call voice assistant.

The dialog turn engine (barge-in flags, recognition handling, turn limit,
backend request flow) is embedded from the source file
VOXIMPLANT_SCENARIO.js.  The backend orchestrator surface (create_call,
handle_telephony_event) is embedded from the code blocks and checklists of
VOXIMPLANT_SETUP.md and, where the repository carries no code for a
behaviour, modelled from the specification text.  The bridge registry
(voximplant-bridge/index.js) is embedded for the disconnect endpoint.
-/

namespace Scenario

/-- Observable side effects the VoxEngine scenario performs on the call,
the ASR, or the backend.  Each constructor corresponds to one concrete
call in VOXIMPLANT_SCENARIO.js:
`stopPlayback` is `currentCall.stopPlayback()` (barge-in, line 167);
`say` is `currentCall.say(text, ...)` inside `speak(text, hangupAfter)`;
`sendMedia` is `currentCall.sendMediaTo(currentASR)` inside `startListening`;
`stopMedia` is `currentCall.stopMediaTo(currentASR)` in the `ASREvents.Result`
handler; `aiRequest` is the POST to the backend `process_text` route issued
by `processTextWithAI`; `hangup` is `currentCall.hangup()` in the one-shot
`PlaybackFinished` listener. -/
inductive Action where
  | stopPlayback
  | say (text : String) (hangupAfter : Bool)
  | sendMedia
  | stopMedia
  | aiRequest (userText : String)
  | hangup
  deriving DecidableEq, Repr

/-- State of one scenario instance: the three barge-in flags, the turn
counter `dialogTurnCount`, whether `currentASR` has been created, the
`hangupAfter` flags of the currently registered one-shot `PlaybackFinished`
listeners (in registration order), the number of in-flight `process_text`
requests, and the user turns actually forwarded to the backend dialog
history. -/
structure EngineState where
  dialogTurnCount : Nat
  isProcessing : Bool
  isListening : Bool
  isSpeaking : Bool
  hasASR : Bool
  pendingHangup : List Bool
  pendingAI : Nat
  userTurns : List String
  deriving DecidableEq, Repr

/-- The fixed re-prompt line of the scenario (line 181):
"Извините, я вас не расслышал. Повторите, пожалуйста." -/
def repromptLine : String := "Извините, я вас не расслышал. Повторите, пожалуйста."

/-- The fixed closing line spoken when the turn limit is exceeded
(line 205): "Спасибо за обращение! До свидания." -/
def closingLine : String := "Спасибо за обращение! До свидания."

/-- The fixed apology line of `handleError` (line 321):
"Извините, произошла ошибка. Пожалуйста, перезвоните позже." -/
def apologyLine : String := "Извините, произошла ошибка. Пожалуйста, перезвоните позже."

/-- Guard `!e.text || !e.text.trim()` of the `ASREvents.Result` handler
(line 180): the transcript is empty or consists of whitespace only. -/
def trimEmpty (t : String) : Bool := t.data.all Char.isWhitespace

/-- Function `startListening` (lines 189–196): returns immediately unless
an ASR exists and neither `isProcessing` nor `isListening` is set;
otherwise sets `isListening` and sends call media to the ASR. -/
def startListening (s : EngineState) : EngineState × List Action :=
  if !s.hasASR || s.isProcessing || s.isListening then (s, [])
  else ({ s with isListening := true }, [Action.sendMedia])

/-- Function `speak(text, hangupAfter)` (lines 287–316): sets `isSpeaking`,
says the text, calls `startListening` (barge-in window), and registers a
one-shot `PlaybackFinished` listener closing over `hangupAfter`. -/
def speak (text : String) (hangupAfter : Bool) (s : EngineState) :
    EngineState × List Action :=
  let s1 := { s with isSpeaking := true,
                     pendingHangup := s.pendingHangup ++ [hangupAfter] }
  let p := startListening s1
  (p.1, Action.say text hangupAfter :: p.2)

/-- Function `processTextWithAI(userText)` (lines 231–283): issues the
asynchronous POST to the backend, which appends the user turn to the
dialog history. -/
def processTextWithAI (userText : String) (s : EngineState) :
    EngineState × List Action :=
  ({ s with pendingAI := s.pendingAI + 1,
            userTurns := s.userTurns ++ [userText] },
   [Action.aiRequest userText])

/-- Function `onRecognitionResult(userText)` (lines 200–210): sets
`isProcessing`, increments `dialogTurnCount`, and either speaks the closing
line with `hangupAfter = true` (when the counter exceeds the turn limit) or
forwards the text to the backend. -/
def onRecognitionResult (maxTurns : Nat) (userText : String)
    (s : EngineState) : EngineState × List Action :=
  let s1 := { s with isProcessing := true,
                     dialogTurnCount := s.dialogTurnCount + 1 }
  if decide (s1.dialogTurnCount > maxTurns) then
    speak closingLine true s1
  else
    processTextWithAI userText s1

/-- Function `handleError` (lines 320–322): speak the apology line with
`hangupAfter = true`. -/
def handleError (s : EngineState) : EngineState × List Action :=
  speak apologyLine true s

/-- Body of the one-shot `PlaybackFinished` listener registered by `speak`
(lines 297–315): clear `isSpeaking` and `isProcessing`, then either hang up
(when `hangupAfter` was set) or restart listening when not already
listening. -/
def playbackFinishedOnce (hangupAfter : Bool) (s : EngineState) :
    EngineState × List Action :=
  let s1 := { s with isSpeaking := false, isProcessing := false }
  if hangupAfter then (s1, [Action.hangup])
  else if s1.isListening then (s1, [])
  else startListening s1

/-- Dispatch of one `PlaybackFinished` event: every currently registered
one-shot listener fires in registration order and removes itself. -/
def fireAll : List Bool → EngineState → EngineState × List Action
  | [], s => (s, [])
  | h :: t, s =>
    let p := playbackFinishedOnce h s
    let q := fireAll t p.1
    (q.1, p.2 ++ q.2)

/-- External events delivered to the scenario: the two ASR events, the call
playback-finished event, and the resolution of an in-flight backend request
(with some text for an HTTP 200 with parseable body, none for a non-200
code, a parse failure, or a network error). -/
inductive Event where
  | captureStarted
  | result (text : String)
  | playbackFinished
  | aiResponse (resp : Option String)
  deriving DecidableEq, Repr

/-- One event-handler activation of VOXIMPLANT_SCENARIO.js, returning the
successor state and the actions performed, in program order.  The
parameter `maxTurns` is the scenario constant MAX_TURNS (12 in the
source). -/
def step (maxTurns : Nat) (s : EngineState) : Event → EngineState × List Action
  | Event.captureStarted =>
    if s.isSpeaking then
      ({ s with isSpeaking := false, isProcessing := false },
       [Action.stopPlayback])
    else (s, [])
  | Event.result t =>
    if s.isProcessing then (s, [])
    else
      let s1 := { s with isListening := false }
      if trimEmpty t then
        let p := speak repromptLine false s1
        (p.1, Action.stopMedia :: p.2)
      else
        let p := onRecognitionResult maxTurns t s1
        (p.1, Action.stopMedia :: p.2)
  | Event.playbackFinished =>
    fireAll s.pendingHangup { s with pendingHangup := [] }
  | Event.aiResponse r =>
    if s.pendingAI = 0 then (s, [])
    else
      let s1 := { s with pendingAI := s.pendingAI - 1 }
      match r with
      | some aiText => speak aiText false s1
      | none => handleError s1

/-- The scenario ignores the wall clock for control flow; `Date.now()` is
read only for latency logging (`requestStart`).  A timed activation makes
this explicit: the timestamp parameter is discarded. -/
def stepTimed (maxTurns : Nat) (_now : Nat) (s : EngineState) (e : Event) :
    EngineState × List Action :=
  step maxTurns s e

/-- State of the scenario right after `initASR` has run and before the
greeting is spoken: all flags clear, counter zero, ASR created. -/
def initState : EngineState :=
  { dialogTurnCount := 0, isProcessing := false, isListening := false,
    isSpeaking := false, hasASR := true, pendingHangup := [],
    pendingAI := 0, userTurns := [] }

/-- Deliver a list of events in order, collecting all actions. -/
def run (maxTurns : Nat) (s : EngineState) : List Event → EngineState × List Action
  | [] => (s, [])
  | e :: es =>
    let p := step maxTurns s e
    let q := run maxTurns p.1 es
    (q.1, p.2 ++ q.2)

/-- A sample non-empty user transcript. -/
def helloText : String := "Здравствуйте"

/-- A sample whitespace-only transcript. -/
def blankText : String := "  "

/-- State during a turn that awaits the backend reply: the first user turn
was accepted (`isProcessing` set, counter 1) and one request is in
flight. -/
def procState : EngineState :=
  { initState with isProcessing := true, pendingAI := 1,
                   dialogTurnCount := 1, userTurns := [helloText] }

/-- Capture-trace discipline: scanning an action list left to right while
tracking whether media is currently being sent to the ASR, every
`sendMedia` must occur while capture is inactive.  Holds exactly when no
two concurrent captures are ever active. -/
def captureOk (a : Bool) : List Action → Bool
  | [] => true
  | Action.sendMedia :: r => !a && captureOk true r
  | Action.stopMedia :: r => captureOk false r
  | _ :: r => captureOk a r

/-- Capture activity after executing an action list, starting from
activity `a`. -/
def threadActive (a : Bool) : List Action → Bool
  | [] => a
  | Action.sendMedia :: r => threadActive true r
  | Action.stopMedia :: r => threadActive false r
  | _ :: r => threadActive a r

end Scenario

namespace Backend

/-- Call status enum from VOXIMPLANT_SETUP.md (checkpoint 2.1, matching
spec section 4.1): created, dialing, in_progress, no_answer, completed,
failed. -/
inductive CallStatus where
  | created
  | dialing
  | inProgress
  | noAnswer
  | completed
  | failed
  deriving DecidableEq, Repr

/-- Terminal statuses: no_answer, completed, failed. -/
def isTerminal : CallStatus → Bool
  | CallStatus.noAnswer => true
  | CallStatus.completed => true
  | CallStatus.failed => true
  | _ => false

/-- One outbound call attempt (the fields of the checklist's CallSession
model that the registry claims depend on). -/
structure CallSession where
  id : Nat
  phone : String
  status : CallStatus
  deriving DecidableEq, Repr

/-- Phone validation from VOXIMPLANT_SETUP.md checkpoint 9.1
(CallRequest.validate_phone): the regex says a literal plus-seven or an
eight, followed by exactly ten digits. -/
def validate_phone (phone : String) : Bool :=
  match phone.data with
  | '+' :: '7' :: rest => rest.length = 10 && rest.all Char.isDigit
  | '8' :: rest => rest.length = 10 && rest.all Char.isDigit
  | _ => false

/-- Normalization to the plus-seven form described in checkpoint 8.1
(phone = normalized_phone). -/
def normalize_phone (phone : String) : String :=
  match phone.data with
  | '8' :: rest => String.mk ('+' :: '7' :: rest)
  | _ => phone

/-- E.164-like phone input, following the specification's words ("valid
E.164-like phone inputs"; its scenario input is "+15551230000"): a leading
plus, then one to fifteen digits, the first of them nonzero.  Stated from
the specification, for comparison with `validate_phone`. -/
def isE164Like (phone : String) : Bool :=
  match phone.data with
  | '+' :: d :: rest =>
    d.isDigit && decide (d ≠ '0') && rest.all Char.isDigit
      && decide (rest.length + 1 ≤ 15)
  | _ => false

/-- In-memory store of the orchestrator (checkpoint 8.1): active call
sessions plus a fresh-id source standing for UUID generation. -/
structure Orchestrator where
  nextId : Nat
  registry : List CallSession
  deriving DecidableEq, Repr

/-- Error taxonomy entry surfaced by create_call on a malformed number. -/
inductive CallError where
  | invalidArgument
  deriving DecidableEq, Repr

/-- Method create_call of the orchestrator (VOXIMPLANT_SETUP.md checkpoint
8.1): validate the number against the checkpoint 9.1 regex, allocate a
fresh id, insert a new session with status created into the store, and
return it; fail with InvalidArgument on a malformed number. -/
def create_call (o : Orchestrator) (phone : String) :
    Except CallError (CallSession × Orchestrator) :=
  if validate_phone phone then
    let sess : CallSession :=
      { id := o.nextId, phone := normalize_phone phone,
        status := CallStatus.created }
    Except.ok (sess, { nextId := o.nextId + 1, registry := o.registry ++ [sess] })
  else
    Except.error CallError.invalidArgument

/-- Registry lookup by call id. -/
def lookup (o : Orchestrator) (id : Nat) : Option CallSession :=
  o.registry.find? (fun s => s.id = id)

/-- Telephony event enum (spec section 6 and checkpoint 9.2). -/
inductive TelephonyEvent where
  | ringing
  | answered
  | busy
  | no_answer
  | error
  | hangup
  deriving DecidableEq, Repr

/-- Status transition per event, from VOXIMPLANT_SETUP.md checkpoint 8.1:
ringing sets dialing, answered sets in_progress, busy and no_answer set
no_answer, error sets failed, hangup sets completed. -/
def applyEvent : TelephonyEvent → CallStatus
  | TelephonyEvent.ringing => CallStatus.dialing
  | TelephonyEvent.answered => CallStatus.inProgress
  | TelephonyEvent.busy => CallStatus.noAnswer
  | TelephonyEvent.no_answer => CallStatus.noAnswer
  | TelephonyEvent.error => CallStatus.failed
  | TelephonyEvent.hangup => CallStatus.completed

/-- Outcome of one orchestrator event dispatch. -/
inductive HandleOutcome where
  | ok
  | notFound
  deriving DecidableEq, Repr

/-- Modelled from the spec: the orchestrator method handle_telephony_event
(core/orchestrator.py, described only as a checklist in
VOXIMPLANT_SETUP.md checkpoint 8.1; the Python backend itself is not among
the repository sources).  Following the specification's contract: an
unknown id fails with NotFound, which is logged and ignored; a session
already in a terminal state treats any further event as a no-op; otherwise
the transition of checkpoint 8.1 is applied to that one session. -/
def handle_telephony_event (o : Orchestrator) (id : Nat) (e : TelephonyEvent) :
    Orchestrator × HandleOutcome :=
  match lookup o id with
  | none => (o, HandleOutcome.notFound)
  | some sess =>
    if isTerminal sess.status then (o, HandleOutcome.ok)
    else
      let reg := o.registry.map
        (fun s => if s.id = id then { s with status := applyEvent e } else s)
      ({ o with registry := reg }, HandleOutcome.ok)

/-- Modelled from the spec: the telephony events endpoint
(VOXIMPLANT_SETUP.md checkpoint 9.2) calls the orchestrator and answers
HTTP 200 regardless; a NotFound from the orchestrator is logged, never
surfaced to the gateway. -/
def events_endpoint (o : Orchestrator) (id : Nat) (e : TelephonyEvent) :
    Orchestrator × Nat :=
  ((handle_telephony_event o id e).1, 200)

/-- An empty orchestrator store. -/
def o0 : Orchestrator := { nextId := 0, registry := [] }

/-- A valid Russian-format number appearing in the scenario source. -/
def phoneRu : String := "+79019433546"

/-- The valid E.164-like number used by the specification's own test
scenario. -/
def phoneUs : String := "+15551230000"

end Backend

namespace Bridge

/-- Value stored in the bridge's activeCalls map
(voximplant-bridge/index.js line 28): whether the VoxEngine call and the
backend WebSocket have been attached. -/
structure CallData where
  hasCall : Bool
  hasWs : Bool
  deriving DecidableEq, Repr

/-- Function cleanup (index.js lines 138–152): close the WebSocket if any
and delete the entry from activeCalls. -/
def cleanup (active : List (String × CallData)) (callId : String) :
    List (String × CallData) :=
  active.filter (fun p => decide (p.1 ≠ callId))

/-- The disconnect endpoint (index.js lines 187–202): 400 without a
call_id; when the id maps to an entry holding a call, hang up, clean up,
and answer 200; otherwise answer 404 Call not found, leaving the map
unchanged. -/
def disconnect (active : List (String × CallData)) (callId : Option String) :
    List (String × CallData) × Nat :=
  match callId with
  | none => (active, 400)
  | some id =>
    match active.find? (fun p => p.1 = id) with
    | some p => if p.2.hasCall then (cleanup active id, 200) else (active, 404)
    | none => (active, 404)

end Bridge

open Scenario

/-! Helper lemmas about the scenario's auxiliary functions. -/

lemma startListening_counters (s : EngineState) :
    (startListening s).1.dialogTurnCount = s.dialogTurnCount ∧
    (startListening s).1.userTurns = s.userTurns := by
  simp only [startListening]
  split <;> simp

lemma speak_counters (text : String) (hu : Bool) (s : EngineState) :
    (speak text hu s).1.dialogTurnCount = s.dialogTurnCount ∧
    (speak text hu s).1.userTurns = s.userTurns := by
  simp only [speak, startListening]
  split <;> simp

lemma playbackFinishedOnce_counters (b : Bool) (s : EngineState) :
    (playbackFinishedOnce b s).1.dialogTurnCount = s.dialogTurnCount ∧
    (playbackFinishedOnce b s).1.userTurns = s.userTurns := by
  simp only [playbackFinishedOnce, startListening]
  split
  · simp
  · split
    · simp
    · split <;> simp

lemma fireAll_counters (l : List Bool) :
    ∀ s : EngineState,
      (fireAll l s).1.dialogTurnCount = s.dialogTurnCount ∧
      (fireAll l s).1.userTurns = s.userTurns := by
  induction l with
  | nil => intro s; simp [fireAll]
  | cons b t ih =>
    intro s
    have h1 := playbackFinishedOnce_counters b s
    have h2 := ih (playbackFinishedOnce b s).1
    simp [fireAll, h1.1, h1.2, h2.1, h2.2]

lemma hangup_mem_fireAll (l : List Bool) :
    ∀ s : EngineState, true ∈ l → Action.hangup ∈ (fireAll l s).2 := by
  induction l with
  | nil => intro s h; simp at h
  | cons b t ih =>
    intro s h
    rcases List.mem_cons.mp h with hb | ht
    · subst hb
      simp [fireAll, playbackFinishedOnce]
    · simp only [fireAll]
      exact List.mem_append_right _ (ih _ ht)

/-! Claim theorems: barge-in and recognition-result handling. -/

/-- C1: in every engine state with isSpeaking true, delivering the ASR
CaptureStarted event stops playback and clears both isSpeaking and
isProcessing, and a recognition result delivered next is processed (the
handler body past the isProcessing guard runs, witnessed by the stop of
media to the ASR) rather than discarded. -/
theorem C1_barge_in_interrupts (m : Nat) (s : EngineState)
    (h : s.isSpeaking = true) :
    (step m s Event.captureStarted).1.isSpeaking = false ∧
    (step m s Event.captureStarted).1.isProcessing = false ∧
    (step m s Event.captureStarted).2 = [Action.stopPlayback] ∧
    ∀ t, Action.stopMedia ∈
      (step m (step m s Event.captureStarted).1 (Event.result t)).2 := by
  have hs : step m s Event.captureStarted =
      ({ s with isSpeaking := false, isProcessing := false },
       [Action.stopPlayback]) := by
    simp [step, h]
  rw [hs]
  refine ⟨rfl, rfl, rfl, ?_⟩
  intro t
  simp only [step]
  split
  · exact absurd (by assumption) (by simp)
  · split <;> simp

/-- C3: a recognition result delivered while isProcessing is true has no
effect at all; otherwise media to the ASR is stopped first, and the engine
either takes the empty-transcript re-prompt branch (no user turn recorded)
or clears isListening, sets isProcessing, and proceeds to generation (an
aiRequest is issued, or the closing line is spoken when the turn limit is
hit). -/
theorem C3_result_guard (m : Nat) (s : EngineState) (t : String) :
    (s.isProcessing = true → step m s (Event.result t) = (s, [])) ∧
    (s.isProcessing = false →
      (step m s (Event.result t)).2.head? = some Action.stopMedia ∧
      (trimEmpty t = true →
        Action.say repromptLine false ∈ (step m s (Event.result t)).2 ∧
        (step m s (Event.result t)).1.userTurns = s.userTurns) ∧
      (trimEmpty t = false →
        (step m s (Event.result t)).1.isListening = false ∧
        (step m s (Event.result t)).1.isProcessing = true ∧
        (Action.aiRequest t ∈ (step m s (Event.result t)).2 ∨
         Action.say closingLine true ∈ (step m s (Event.result t)).2))) := by
  constructor
  · intro h
    simp [step, h]
  · intro h
    refine ⟨?_, ?_, ?_⟩
    · simp only [step, h]
      split
      · exact absurd (by assumption) (by simp)
      · split <;> rfl
    · intro ht
      have hs : step m s (Event.result t) =
          ((speak repromptLine false { s with isListening := false }).1,
           Action.stopMedia ::
             (speak repromptLine false { s with isListening := false }).2) := by
        simp [step, h, ht]
      rw [hs]
      constructor
      · simp [speak]
      · have hc := speak_counters repromptLine false { s with isListening := false }
        simpa using hc.2
    · intro ht
      have hs : step m s (Event.result t) =
          ((onRecognitionResult m t { s with isListening := false }).1,
           Action.stopMedia ::
             (onRecognitionResult m t { s with isListening := false }).2) := by
        simp [step, h, ht]
      rw [hs]
      simp only [onRecognitionResult]
      split
      · refine ⟨?_, ?_, Or.inr ?_⟩ <;> simp [speak, startListening]
      · refine ⟨?_, ?_, Or.inl ?_⟩ <;> simp [processTextWithAI]

lemma onRecognitionResult_count (m : Nat) (u : String) (s : EngineState) :
    (onRecognitionResult m u s).1.dialogTurnCount = s.dialogTurnCount + 1 := by
  simp only [onRecognitionResult]
  split
  · have := speak_counters closingLine true
      { s with isProcessing := true, dialogTurnCount := s.dialogTurnCount + 1 }
    simpa using this.1
  · simp [processTextWithAI]

/-- C7: an empty or whitespace-only recognition transcript is ignored: the
turn counter and the recorded user turns are untouched, no generation
request is issued, and the engine speaks exactly one re-prompt line while
immediately resuming capture. -/
theorem C7_empty_transcript_reprompt (m : Nat) (s : EngineState) (t : String)
    (h1 : s.isProcessing = false) (h2 : trimEmpty t = true)
    (h3 : s.hasASR = true) :
    step m s (Event.result t) =
      ({ s with isListening := true, isSpeaking := true,
                pendingHangup := s.pendingHangup ++ [false] },
       [Action.stopMedia, Action.say repromptLine false, Action.sendMedia]) ∧
    (step m s (Event.result t)).1.dialogTurnCount = s.dialogTurnCount ∧
    (step m s (Event.result t)).1.userTurns = s.userTurns ∧
    ∀ u, Action.aiRequest u ∉ (step m s (Event.result t)).2 := by
  have hs : step m s (Event.result t) =
      ({ s with isListening := true, isSpeaking := true,
                pendingHangup := s.pendingHangup ++ [false] },
       [Action.stopMedia, Action.say repromptLine false, Action.sendMedia]) := by
    simp [step, h1, h2, speak, startListening, h3]
  rw [hs]
  simp

/-- C10: the turn counter dialogTurnCount changes only when a recognition
result with non-whitespace text is delivered while isProcessing is false,
in which case it increments by one; whitespace-only results never touch
it. -/
theorem C10_counter_only_on_accepted (m : Nat) (s : EngineState) :
    (∀ e, (step m s e).1.dialogTurnCount ≠ s.dialogTurnCount →
      ∃ t, e = Event.result t ∧ trimEmpty t = false ∧ s.isProcessing = false ∧
        (step m s e).1.dialogTurnCount = s.dialogTurnCount + 1) ∧
    (∀ t, trimEmpty t = true →
      (step m s (Event.result t)).1.dialogTurnCount = s.dialogTurnCount) := by
  constructor
  · intro e he
    cases e with
    | captureStarted =>
      exfalso; apply he
      simp only [step]; split <;> rfl
    | result t =>
      by_cases hp : s.isProcessing = true
      · exfalso; apply he; simp [step, hp]
      · have hp2 : s.isProcessing = false := by simpa using hp
        by_cases ht : trimEmpty t = true
        · exfalso; apply he
          simp [step, hp2, ht, speak_counters]
        · have ht2 : trimEmpty t = false := by simpa using ht
          refine ⟨t, rfl, ht2, hp2, ?_⟩
          have hso : step m s (Event.result t) =
              ((onRecognitionResult m t { s with isListening := false }).1,
               Action.stopMedia ::
                 (onRecognitionResult m t { s with isListening := false }).2) := by
            simp [step, hp2, ht2]
          rw [hso]
          have := onRecognitionResult_count m t { s with isListening := false }
          simpa using this
    | playbackFinished =>
      exfalso; apply he
      simp [step, fireAll_counters]
    | aiResponse r =>
      exfalso; apply he
      by_cases hz : s.pendingAI = 0
      · simp [step, hz]
      · cases r with
        | some a => simp [step, hz, speak_counters]
        | none => simp [step, hz, handleError, speak_counters]
  · intro t ht
    by_cases hp : s.isProcessing = true
    · simp [step, hp]
    · have hp2 : s.isProcessing = false := by simpa using hp
      simp [step, hp2, ht, speak_counters]

/-- A state in which the assistant is speaking the greeting with the
barge-in capture window open. -/
def bargeState : EngineState :=
  { initState with isSpeaking := true, isListening := true }

theorem C1_witness :
    (step 12 bargeState Event.captureStarted).1.isSpeaking = false ∧
    (step 12 bargeState Event.captureStarted).1.isProcessing = false ∧
    (step 12 bargeState Event.captureStarted).2 = [Action.stopPlayback] ∧
    ∀ t, Action.stopMedia ∈
      (step 12 (step 12 bargeState Event.captureStarted).1 (Event.result t)).2 :=
  C1_barge_in_interrupts 12 bargeState rfl

theorem C3_witness :
    (step 12 initState (Event.result helloText)).2.head? = some Action.stopMedia ∧
    (trimEmpty helloText = true →
      Action.say repromptLine false ∈ (step 12 initState (Event.result helloText)).2 ∧
      (step 12 initState (Event.result helloText)).1.userTurns = initState.userTurns) ∧
    (trimEmpty helloText = false →
      (step 12 initState (Event.result helloText)).1.isListening = false ∧
      (step 12 initState (Event.result helloText)).1.isProcessing = true ∧
      (Action.aiRequest helloText ∈ (step 12 initState (Event.result helloText)).2 ∨
       Action.say closingLine true ∈ (step 12 initState (Event.result helloText)).2)) :=
  (C3_result_guard 12 initState helloText).2 rfl

theorem C7_witness :
    step 12 initState (Event.result blankText) =
      ({ initState with
           isListening := true, isSpeaking := true,
           pendingHangup := initState.pendingHangup ++ [false] },
       [Action.stopMedia, Action.say repromptLine false, Action.sendMedia]) ∧
    (step 12 initState (Event.result blankText)).1.dialogTurnCount =
      initState.dialogTurnCount ∧
    (step 12 initState (Event.result blankText)).1.userTurns = initState.userTurns ∧
    ∀ u, Action.aiRequest u ∉ (step 12 initState (Event.result blankText)).2 :=
  C7_empty_transcript_reprompt 12 initState blankText rfl (by decide) rfl

theorem C10_witness :
    ∃ t, Event.result helloText = Event.result t ∧ trimEmpty t = false ∧
      initState.isProcessing = false ∧
      (step 12 initState (Event.result helloText)).1.dialogTurnCount =
        initState.dialogTurnCount + 1 :=
  (C10_counter_only_on_accepted 12 initState).1 (Event.result helloText) (by decide)

/-- C2: evaluation of the engine at a transient backend failure: the very
first failed process_text request makes the engine speak the apology line
with hangup-after set; no second aiRequest (retry) is ever issued and the
subsequent playback-finished event hangs the call up. -/
theorem C2_transient_error_no_retry :
    (step 12 procState (Event.aiResponse none)).2 = [Action.say apologyLine true] ∧
    (∀ u, Action.aiRequest u ∉ (step 12 procState (Event.aiResponse none)).2) ∧
    (step 12 procState (Event.aiResponse none)).1.pendingAI = 0 ∧
    Action.hangup ∈
      (step 12 (step 12 procState (Event.aiResponse none)).1
        Event.playbackFinished).2 := by
  have h1 : (step 12 procState (Event.aiResponse none)).2
      = [Action.say apologyLine true] := by decide
  refine ⟨h1, ?_, by decide, by decide⟩
  intro u
  rw [h1]
  simp

/-- C6: the timed activation is independent of the clock: the scenario
contains no duration check at all, so a recognition result arriving at an
arbitrarily late timestamp still leads to a generation request, with no
closing utterance and no hangup. -/
theorem C6_no_duration_limit :
    (∀ m t s e, stepTimed m t s e = step m s e) ∧
    (stepTimed 12 1000000000 initState (Event.result helloText)).2
      = [Action.stopMedia, Action.aiRequest helloText] ∧
    (∀ text hu, Action.say text hu ∉
      (stepTimed 12 1000000000 initState (Event.result helloText)).2) ∧
    Action.hangup ∉
      (stepTimed 12 1000000000 initState (Event.result helloText)).2 := by
  have h1 : (stepTimed 12 1000000000 initState (Event.result helloText)).2
      = [Action.stopMedia, Action.aiRequest helloText] := by decide
  refine ⟨fun m t s e => rfl, h1, ?_, ?_⟩
  · intro text hu
    rw [h1]
    simp
  · rw [h1]
    simp

/-- C8 counterexample: the number used by the specification's own test
scenario is a valid E.164-like input, yet the backend validator rejects it,
so create_call fails with InvalidArgument instead of registering a session
in state Created. -/
theorem C8_counterexample_e164 :
    Backend.isE164Like Backend.phoneUs = true ∧
    Backend.create_call Backend.o0 Backend.phoneUs
      = Except.error Backend.CallError.invalidArgument := by
  constructor
  · decide
  · rfl

/-- C8 (amended): for every phone input accepted by the checkpoint 9.1
validator regex, create_call returns a fresh session with status created
and a unique id appended to the active registry; for every input the regex
rejects it fails with InvalidArgument and the registry is untouched. -/
theorem C8_create_call_validated (o : Backend.Orchestrator) (phone : String)
    (hfresh : ∀ sess ∈ o.registry, sess.id < o.nextId) :
    (Backend.validate_phone phone = true →
      ∃ sess o2,
        Backend.create_call o phone = Except.ok (sess, o2) ∧
        sess.status = Backend.CallStatus.created ∧
        sess.id = o.nextId ∧
        (∀ old ∈ o.registry, old.id ≠ sess.id) ∧
        o2.registry = o.registry ++ [sess] ∧
        ∀ s2 ∈ o2.registry, s2.id < o2.nextId) ∧
    (Backend.validate_phone phone = false →
      Backend.create_call o phone = Except.error Backend.CallError.invalidArgument) := by
  constructor
  · intro hv
    simp only [Backend.create_call, hv, if_true]
    refine ⟨_, _, rfl, rfl, rfl, ?_, rfl, ?_⟩
    · intro old ho
      exact Nat.ne_of_lt (hfresh old ho)
    · intro s2 hs2
      rcases List.mem_append.mp hs2 with hm | hm
      · exact Nat.lt_succ_of_lt (hfresh s2 hm)
      · simp only [List.mem_singleton] at hm
        subst hm
        exact Nat.lt_succ_self _
  · intro hv
    simp [Backend.create_call, hv]

/-- C9: an event for an id absent from the registry yields NotFound and
leaves the store untouched, and the HTTP events endpoint still answers
200 (the error is logged, never propagated); an event for a session
already terminal is a no-op; the bridge disconnect endpoint likewise
answers 404 for an unknown id without touching its map. -/
theorem C9_event_dispatch :
    (∀ o id e, Backend.lookup o id = none →
      Backend.handle_telephony_event o id e = (o, Backend.HandleOutcome.notFound) ∧
      Backend.events_endpoint o id e = (o, 200)) ∧
    (∀ o id e sess, Backend.lookup o id = some sess →
      Backend.isTerminal sess.status = true →
      Backend.handle_telephony_event o id e = (o, Backend.HandleOutcome.ok)) ∧
    (∀ (active : List (String × Bridge.CallData)) id,
      active.find? (fun p => p.1 = id) = none →
      Bridge.disconnect active (some id) = (active, 404)) := by
  refine ⟨?_, ?_, ?_⟩
  · intro o id e h
    constructor <;>
      simp [Backend.handle_telephony_event, Backend.events_endpoint, h]
  · intro o id e sess h hterm
    simp [Backend.handle_telephony_event, h, hterm]
  · intro active id h
    simp [Bridge.disconnect, h]

/-- An orchestrator holding one already-completed session. -/
def termOrch : Backend.Orchestrator :=
  { nextId := 1,
    registry := [{ id := 0, phone := Backend.phoneRu,
                   status := Backend.CallStatus.completed }] }

/-- A sample bridge call id. -/
def cid : String := "demo-call"

theorem C8_witness :
    ∃ sess o2,
      Backend.create_call Backend.o0 Backend.phoneRu = Except.ok (sess, o2) ∧
      sess.status = Backend.CallStatus.created ∧
      sess.id = Backend.o0.nextId ∧
      (∀ old ∈ Backend.o0.registry, old.id ≠ sess.id) ∧
      o2.registry = Backend.o0.registry ++ [sess] ∧
      ∀ s2 ∈ o2.registry, s2.id < o2.nextId :=
  (C8_create_call_validated Backend.o0 Backend.phoneRu
    (by simp [Backend.o0])).1 (by decide)

theorem C9_witness :
    (Backend.handle_telephony_event Backend.o0 5 Backend.TelephonyEvent.hangup
        = (Backend.o0, Backend.HandleOutcome.notFound) ∧
     Backend.events_endpoint Backend.o0 5 Backend.TelephonyEvent.hangup
        = (Backend.o0, 200)) ∧
    Backend.handle_telephony_event termOrch 0 Backend.TelephonyEvent.hangup
        = (termOrch, Backend.HandleOutcome.ok) ∧
    Bridge.disconnect [] (some cid) = ([], 404) :=
  ⟨C9_event_dispatch.1 Backend.o0 5 Backend.TelephonyEvent.hangup rfl,
   C9_event_dispatch.2.1 termOrch 0 Backend.TelephonyEvent.hangup _ rfl rfl,
   C9_event_dispatch.2.2 [] cid rfl⟩

/-! Capture-trace discipline lemmas for C4. -/

lemma threadActive_append (l1 l2 : List Action) :
    ∀ a, threadActive a (l1 ++ l2) = threadActive (threadActive a l1) l2 := by
  induction l1 with
  | nil => intro a; simp [threadActive]
  | cons x r ih =>
    intro a
    cases x <;> simp [threadActive, ih]

lemma captureOk_append (l1 l2 : List Action) :
    ∀ a, captureOk a (l1 ++ l2)
      = (captureOk a l1 && captureOk (threadActive a l1) l2) := by
  induction l1 with
  | nil => intro a; simp [captureOk, threadActive]
  | cons x r ih =>
    intro a
    cases x <;> simp [captureOk, threadActive, ih, Bool.and_assoc]

/-- Pairing of the two capture-discipline facts: the emitted action list
respects the discipline starting from the pre-state's isListening flag,
and the post-state's isListening flag equals the threaded activity. -/
def CapOk (s : EngineState) (p : EngineState × List Action) : Prop :=
  captureOk s.isListening p.2 = true ∧
  p.1.isListening = threadActive s.isListening p.2

lemma capOk_comp (s : EngineState) (p q : EngineState × List Action)
    (h1 : CapOk s p) (h2 : CapOk p.1 q) :
    CapOk s (q.1, p.2 ++ q.2) := by
  constructor
  · rw [captureOk_append, h1.1, ← h1.2, h2.1]
    rfl
  · show q.1.isListening = threadActive s.isListening (p.2 ++ q.2)
    rw [threadActive_append, ← h1.2]
    exact h2.2

lemma capOk_mono (s s2 : EngineState) (p : EngineState × List Action)
    (h : s.isListening = s2.isListening) (hc : CapOk s2 p) : CapOk s p := by
  unfold CapOk
  rw [h]
  exact hc

lemma capOk_startListening (s : EngineState) : CapOk s (startListening s) := by
  simp only [startListening]
  split
  · exact ⟨rfl, rfl⟩
  · rename_i hg
    have hl : s.isListening = false := by
      revert hg
      cases s.isListening <;> simp
    constructor
    · simp [captureOk, hl]
    · simp [threadActive]

lemma capOk_speak (text : String) (hu : Bool) (s : EngineState) :
    CapOk s (speak text hu s) := by
  simp only [speak]
  have h := capOk_startListening
    { s with isSpeaking := true, pendingHangup := s.pendingHangup ++ [hu] }
  constructor
  · simp only [captureOk]
    exact h.1
  · simp only [threadActive]
    exact h.2

lemma capOk_processTextWithAI (u : String) (s : EngineState) :
    CapOk s (processTextWithAI u s) := by
  constructor <;> simp [processTextWithAI, captureOk, threadActive]

lemma capOk_onRecognitionResult (m : Nat) (u : String) (s : EngineState) :
    CapOk s (onRecognitionResult m u s) := by
  simp only [onRecognitionResult]
  split
  · exact capOk_mono s
      { s with isProcessing := true, dialogTurnCount := s.dialogTurnCount + 1 }
      _ rfl (capOk_speak closingLine true _)
  · exact capOk_mono s
      { s with isProcessing := true, dialogTurnCount := s.dialogTurnCount + 1 }
      _ rfl (capOk_processTextWithAI u _)

lemma capOk_playbackFinishedOnce (b : Bool) (s : EngineState) :
    CapOk s (playbackFinishedOnce b s) := by
  simp only [playbackFinishedOnce]
  split
  · exact ⟨rfl, rfl⟩
  · split
    · exact ⟨rfl, rfl⟩
    · exact capOk_mono s
        { s with isSpeaking := false, isProcessing := false }
        _ rfl (capOk_startListening _)

lemma capOk_fireAll (l : List Bool) :
    ∀ s : EngineState, CapOk s (fireAll l s) := by
  induction l with
  | nil => intro s; exact ⟨rfl, rfl⟩
  | cons b t ih =>
    intro s
    simp only [fireAll]
    exact capOk_comp s (playbackFinishedOnce b s)
      (fireAll t (playbackFinishedOnce b s).1)
      (capOk_playbackFinishedOnce b s) (ih _)

lemma capOk_step (m : Nat) (s : EngineState) (e : Event) :
    CapOk s (step m s e) := by
  cases e with
  | captureStarted =>
    simp only [step]
    split
    · exact ⟨rfl, rfl⟩
    · exact ⟨rfl, rfl⟩
  | result t =>
    simp only [step]
    split
    · exact ⟨rfl, rfl⟩
    · split
      · have h := capOk_speak repromptLine false { s with isListening := false }
        constructor
        · simp only [captureOk]
          exact h.1
        · simp only [threadActive]
          exact h.2
      · have h := capOk_onRecognitionResult m t { s with isListening := false }
        constructor
        · simp only [captureOk]
          exact h.1
        · simp only [threadActive]
          exact h.2
  | playbackFinished =>
    exact capOk_mono s { s with pendingHangup := [] } _ rfl (capOk_fireAll _ _)
  | aiResponse r =>
    simp only [step]
    split
    · exact ⟨rfl, rfl⟩
    · cases r with
      | some a =>
        exact capOk_mono s { s with pendingAI := s.pendingAI - 1 } _ rfl
          (capOk_speak a false _)
      | none =>
        simp only [handleError]
        exact capOk_mono s { s with pendingAI := s.pendingAI - 1 } _ rfl
          (capOk_speak apologyLine true _)

lemma capOk_run (m : Nat) (es : List Event) :
    ∀ s : EngineState, CapOk s (run m s es) := by
  induction es with
  | nil => intro s; exact ⟨rfl, rfl⟩
  | cons e t ih =>
    intro s
    simp only [run]
    exact capOk_comp s (step m s e) (run m (step m s e).1 t)
      (capOk_step m s e) (ih _)

/-- C4: audio capture is started only from a state where both isProcessing
and isListening are false (the startListening guard); the barge-in handler
itself never starts a capture (so no duplicate capture appears while the
greeting is interrupted); and along any run of the engine the emitted
action trace never sends media to the ASR while a capture is already
active. -/
theorem C4_capture_exclusive :
    (∀ s : EngineState, (startListening s).2 ≠ [] →
      s.isProcessing = false ∧ s.isListening = false) ∧
    (∀ (m : Nat) (s : EngineState),
      (step m s Event.captureStarted).2 = [Action.stopPlayback] ∨
      (step m s Event.captureStarted).2 = []) ∧
    (∀ (m : Nat) (es : List Event),
      captureOk false (run m initState es).2 = true) := by
  refine ⟨?_, ?_, ?_⟩
  · intro s h
    simp only [startListening] at h
    by_cases hg : (!s.hasASR || s.isProcessing || s.isListening) = true
    · rw [if_pos hg] at h
      exact absurd rfl h
    · constructor
      · revert hg
        cases s.isProcessing <;> simp
      · revert hg
        cases s.isListening <;> simp
  · intro m s
    simp only [step]
    split
    · exact Or.inl rfl
    · exact Or.inr rfl
  · intro m es
    exact (capOk_run m es initState).1

/-- Events of a short three-turn demo conversation. -/
def demoEvents : List Event :=
  [Event.result helloText, Event.aiResponse (some helloText),
   Event.playbackFinished,
   Event.result helloText, Event.aiResponse (some helloText),
   Event.playbackFinished,
   Event.result helloText]

theorem C4_witness :
    (initState.isProcessing = false ∧ initState.isListening = false) ∧
    ((step 12 bargeState Event.captureStarted).2 = [Action.stopPlayback] ∨
     (step 12 bargeState Event.captureStarted).2 = []) ∧
    captureOk false (run 12 initState demoEvents).2 = true :=
  ⟨C4_capture_exclusive.1 initState (by decide),
   C4_capture_exclusive.2.1 12 bargeState,
   C4_capture_exclusive.2.2 12 demoEvents⟩

/-! Turn-limit invariant lemmas for C5. -/

lemma turns_le_step (m : Nat) (s : EngineState) (e : Event)
    (h1 : s.userTurns.length ≤ s.dialogTurnCount)
    (h2 : s.userTurns.length ≤ m) :
    (step m s e).1.userTurns.length ≤ (step m s e).1.dialogTurnCount ∧
    (step m s e).1.userTurns.length ≤ m := by
  cases e with
  | captureStarted =>
    simp only [step]
    split
    · exact ⟨h1, h2⟩
    · exact ⟨h1, h2⟩
  | result t =>
    by_cases hp : s.isProcessing = true
    · have hs : step m s (Event.result t) = (s, []) := by simp [step, hp]
      rw [hs]
      exact ⟨h1, h2⟩
    · have hp2 : s.isProcessing = false := by simpa using hp
      by_cases ht : trimEmpty t = true
      · have hs : step m s (Event.result t) =
            ((speak repromptLine false { s with isListening := false }).1,
             Action.stopMedia ::
               (speak repromptLine false { s with isListening := false }).2) := by
          simp [step, hp2, ht]
        rw [hs]
        have hc := speak_counters repromptLine false { s with isListening := false }
        rw [hc.1, hc.2]
        exact ⟨h1, h2⟩
      · have ht2 : trimEmpty t = false := by simpa using ht
        have hs : step m s (Event.result t) =
            ((onRecognitionResult m t { s with isListening := false }).1,
             Action.stopMedia ::
               (onRecognitionResult m t { s with isListening := false }).2) := by
          simp [step, hp2, ht2]
        rw [hs]
        simp only [onRecognitionResult]
        split
        · rename_i hgt
          have hc := speak_counters closingLine true
            { s with isListening := false, isProcessing := true,
                     dialogTurnCount := s.dialogTurnCount + 1 }
          rw [hc.1, hc.2]
          exact ⟨Nat.le_succ_of_le h1, h2⟩
        · rename_i hle
          have hm : s.dialogTurnCount + 1 ≤ m := by
            simpa using hle
          simp only [processTextWithAI, List.length_append, List.length_cons,
            List.length_nil]
          constructor
          · omega
          · omega
  | playbackFinished =>
    simp only [step]
    have hc := fireAll_counters s.pendingHangup { s with pendingHangup := [] }
    rw [hc.1, hc.2]
    exact ⟨h1, h2⟩
  | aiResponse r =>
    by_cases hz : s.pendingAI = 0
    · have hs : step m s (Event.aiResponse r) = (s, []) := by simp [step, hz]
      rw [hs]
      exact ⟨h1, h2⟩
    · cases r with
      | some a =>
        have hs : step m s (Event.aiResponse (some a)) =
            speak a false { s with pendingAI := s.pendingAI - 1 } := by
          simp [step, hz]
        rw [hs]
        have hc := speak_counters a false { s with pendingAI := s.pendingAI - 1 }
        rw [hc.1, hc.2]
        exact ⟨h1, h2⟩
      | none =>
        have hs : step m s (Event.aiResponse none) =
            speak apologyLine true { s with pendingAI := s.pendingAI - 1 } := by
          simp [step, hz, handleError]
        rw [hs]
        have hc := speak_counters apologyLine true
          { s with pendingAI := s.pendingAI - 1 }
        rw [hc.1, hc.2]
        exact ⟨h1, h2⟩

lemma turns_le_run (m : Nat) (es : List Event) :
    ∀ s : EngineState,
      s.userTurns.length ≤ s.dialogTurnCount → s.userTurns.length ≤ m →
      (run m s es).1.userTurns.length ≤ (run m s es).1.dialogTurnCount ∧
      (run m s es).1.userTurns.length ≤ m := by
  induction es with
  | nil =>
    intro s h1 h2
    exact ⟨h1, h2⟩
  | cons e t ih =>
    intro s h1 h2
    have hstep := turns_le_step m s e h1 h2
    have := ih (step m s e).1 hstep.1 hstep.2
    simpa [run] using this

/-- C5: once the accepted-turn counter has reached the limit, the next
accepted recognition result makes the engine speak only the fixed closing
line (hanging up on playback-finished) and record no further user turn;
and along every run from the initial state the number of user turns
forwarded to the dialog never exceeds maxTurns — with maxTurns = 2 no
third user turn is ever produced. -/
theorem C5_turn_limit (m : Nat) :
    (∀ s t, s.isProcessing = false → trimEmpty t = false →
      m ≤ s.dialogTurnCount →
      (step m s (Event.result t)).2
          = [Action.stopMedia, Action.say closingLine true] ∧
      (step m s (Event.result t)).1.userTurns = s.userTurns ∧
      Action.hangup ∈
        (step m (step m s (Event.result t)).1 Event.playbackFinished).2) ∧
    (∀ es, ((run m initState es).1.userTurns).length ≤ m) := by
  constructor
  · intro s t hp ht hm
    have hgt : decide (s.dialogTurnCount + 1 > m) = true := by
      simp
      omega
    have hs : step m s (Event.result t) =
        ({ s with isListening := false, isProcessing := true,
                  dialogTurnCount := s.dialogTurnCount + 1, isSpeaking := true,
                  pendingHangup := s.pendingHangup ++ [true] },
         [Action.stopMedia, Action.say closingLine true]) := by
      simp [step, hp, ht, onRecognitionResult, hgt, speak, startListening]
    rw [hs]
    refine ⟨rfl, rfl, ?_⟩
    simp only [step]
    exact hangup_mem_fireAll _ _ (by simp)
  · intro es
    exact (turns_le_run m es initState (by simp [initState]) (by simp [initState])).2

/-- A state whose accepted-turn counter already sits at the limit 2. -/
def limitState : EngineState := { initState with dialogTurnCount := 2 }

theorem C5_witness :
    ((step 2 limitState (Event.result helloText)).2
        = [Action.stopMedia, Action.say closingLine true] ∧
     (step 2 limitState (Event.result helloText)).1.userTurns =
        limitState.userTurns ∧
     Action.hangup ∈
       (step 2 (step 2 limitState (Event.result helloText)).1
         Event.playbackFinished).2) ∧
    ((run 2 initState demoEvents).1.userTurns).length ≤ 2 :=
  ⟨(C5_turn_limit 2).1 limitState helloText rfl (by decide) (by decide),
   (C5_turn_limit 2).2 demoEvents⟩
